import Mathlib

/-!
Shallow embedding of the visitor-logging Flask application (`src/app.py`)
and proofs about its request-handling and data-shaping logic.

Modelling conventions:
* Python dicts carrying JSON-like data become association lists
  `Dict := List (String × Val)`; `dget`/`dset` mirror Python `d.get`
  / `d[k] = v` (replace the first matching key, else append).
* JSON scalar values are `Val`: strings, numbers and `None`.  The app never
  computes with the numeric payloads (`lat`/`lon`), so they are carried as
  integers purely as opaque tokens.
* Python string operations used by the app (`split` on a single-character
  separator, `strip`, `startswith`, `in`) are re-implemented over `.data`
  (the character list) with Python semantics, since kernel reduction of the
  built-in `String` search functions is unavailable.
* Outbound effects become explicit parameters: the single geolocation HTTP
  call is an `HttpOutcome`, the Cosmos client construction a
  `ClientConstruction`, the `create_item` call a `CosmosOutcome`, and the
  two `datetime.now()` readings a unix-seconds integer and an ISO string.
* A Python function that can raise is modelled with `Except String`;
  swallowed exceptions stay internal to the definitions that catch them.
-/

namespace VisitorApp

/-! ### Python string primitives -/

/-- Python `s.startswith(pre)`. -/
def pyStartsWith (s pre : String) : Bool := pre.data.isPrefixOf s.data

/-- Python `c in s` for a single character `c`. -/
def pyContains (s : String) (c : Char) : Bool := s.data.contains c

/-- Helper for `pySplit`: accumulates the current segment (reversed). -/
def splitCharAux (sep : Char) : List Char → List Char → List (List Char)
  | [], acc => [acc.reverse]
  | c :: cs, acc =>
      if c = sep then acc.reverse :: splitCharAux sep cs []
      else splitCharAux sep cs (c :: acc)

/-- Python `s.split(sep)` for a single-character separator: splits at every
occurrence, keeping empty segments (`"a,,b".split(",") = ["a","","b"]`,
`"".split(",") = [""]`). -/
def pySplit (sep : Char) (s : String) : List String :=
  (splitCharAux sep s.data []).map String.mk

/-- Python `s.strip()`: drop whitespace from both ends. -/
def pyStrip (s : String) : String :=
  String.mk (((s.data.dropWhile Char.isWhitespace).reverse.dropWhile
    Char.isWhitespace).reverse)

/-! ### JSON-like values and dictionaries -/

/-- A JSON scalar value as the app passes it around.  Numbers appear only as
opaque payloads (`lat`/`lon`, never computed with), carried as `Int`. -/
inductive Val : Type where
  | s : String → Val
  | num : Int → Val
  | null : Val
deriving DecidableEq

/-- A Python dict with string keys, in insertion order. -/
def Dict : Type := List (String × Val)

instance : DecidableEq Dict := by
  unfold Dict
  exact inferInstance

/-- Python `d.get(k)` (and the lookup part of `d[k]`). -/
def dget : Dict → String → Option Val
  | [], _ => none
  | (k, v) :: t, key => if k = key then some v else dget t key

/-- Python `d[k] = v`: replace the value at the first occurrence of the key,
else append the new pair at the end (dict keys are unique, insertion order
is preserved). -/
def dset : Dict → String → Val → Dict
  | [], k, v => [(k, v)]
  | (k', v') :: t, k, v =>
      if k' = k then (k', v) :: t else (k', v') :: dset t k v

/-- Python `str(x)` as the f-strings in the app apply it to a `Val`. -/
def valToStr : Val → String
  | .s str => str
  | .num n => toString n
  | .null => "None"

theorem dget_dset_self (d : Dict) (k : String) (v : Val) :
    dget (dset d k v) k = some v := by
  induction d with
  | nil => simp [dset, dget]
  | cons hd t ih =>
      obtain ⟨k', v'⟩ := hd
      by_cases h : k' = k
      · simp [dset, dget, h]
      · simp [dset, dget, h, ih]

theorem dget_dset_ne (d : Dict) (k k' : String) (v : Val) (h : k' ≠ k) :
    dget (dset d k v) k' = dget d k' := by
  induction d with
  | nil => simp [dset, dget, Ne.symm h]
  | cons hd t ih =>
      obtain ⟨k0, v0⟩ := hd
      by_cases h0 : k0 = k
      · subst h0
        simp [dset, dget, Ne.symm h]
      · simp [dset, dget, h0, ih]

/-! ### `get_client_ip` (src/app.py lines 34-51) -/

/-- The request context `get_client_ip` reads: the header map and the
transport-level peer address (`request.remote_addr`, which Flask types as
optional).  Werkzeug header lookup is case-insensitive; headers are modelled
keyed by the exact names the app queries. -/
structure RequestCtx : Type where
  headers : List (String × String)
  remote_addr : Option String
deriving DecidableEq

/-- `request.headers.get(k)`: the header's value when present (possibly the
empty string), else `None`. -/
def headersGet (ctx : RequestCtx) (k : String) : Option String :=
  match ctx.headers.find? (fun p => p.1 == k) with
  | some p => some p.2
  | none => none

/-- Python truthiness of `request.headers.get(k)`: a present, non-empty
string. -/
def truthy : Option String → Bool
  | some s => !(s == "")
  | none => false

/-- Lines 36-45: the if/elif/else ladder that picks the raw address.
`none` means Python `ip` is `None` (all header branches falsy and
`request.remote_addr` is `None`). -/
def resolveIp (ctx : RequestCtx) : Option String :=
  if truthy (headersGet ctx "X-Azure-ClientIP") then
    headersGet ctx "X-Azure-ClientIP"
  else if truthy (headersGet ctx "X-Forwarded-For") then
    match headersGet ctx "X-Forwarded-For" with
    | some v => some (pyStrip ((pySplit ',' v).headD ""))
    | none => none
  else if truthy (headersGet ctx "X-Real-IP") then
    headersGet ctx "X-Real-IP"
  else
    ctx.remote_addr

/-- Lines 47-49: `if ":" in ip and not ip.startswith("["): ip = ip.split(":")[0]`. -/
def stripPort (ip : String) : String :=
  if pyContains ip ':' && !(pyStartsWith ip "[") then
    (pySplit ':' ip).headD ""
  else ip

/-- `get_client_ip` (lines 34-51).  When the resolved `ip` is Python `None`,
line 48 evaluates `":" in None` and raises `TypeError`; this is the
`Except.error` case. -/
def get_client_ip (ctx : RequestCtx) : Except String String :=
  match resolveIp ctx with
  | some ip => Except.ok (stripPort ip)
  | none => Except.error "TypeError: argument of type NoneType is not iterable"

/-- Whether an `Except` result is a normal return. -/
def exceptOk (e : Except String String) : Bool :=
  match e with
  | .ok _ => true
  | .error _ => false

/-! ### `get_country_from_ip` (src/app.py lines 54-140) -/

/-- Lines 60-65: the local/private test,
`ip in ["127.0.0.1", "localhost"] or ip.startswith(("192.168.")) or
ip.startswith("10.") or ip.startswith("172.")`. -/
def isLocalIp (ip : String) : Bool :=
  (ip == "127.0.0.1" || ip == "localhost")
    || pyStartsWith ip "192.168."
    || pyStartsWith ip "10."
    || pyStartsWith ip "172."

/-- Outcome of the single `requests.get(url, timeout=10)` call (plus the
subsequent `response.json()` parse): a response with its HTTP status code
and parsed JSON body, a `requests.exceptions.Timeout`, or any other
exception (carrying `str(e)`), which also covers a failing JSON parse. -/
inductive HttpOutcome : Type where
  | response : Nat → Dict → HttpOutcome
  | timeout : HttpOutcome
  | exc : String → HttpOutcome
deriving DecidableEq

/-- Whether control in `get_country_from_ip` reaches the outbound
`requests.get` at line 87: only when the IP is neither local/private nor
empty. -/
def geoRequestsNetwork (ip : String) : Bool :=
  !(isLocalIp ip) && !(ip == "")

/-- `get_country_from_ip` (lines 54-140), with the upstream call's outcome
as an explicit parameter.  The function catches `Timeout` and every other
exception, so it never raises (it is total here). -/
def get_country_from_ip (ip_address : String) (net : HttpOutcome) : Dict :=
  if isLocalIp ip_address then
    [("country", Val.s "Local/Private"), ("countryCode", Val.s "LOCAL"),
     ("city", Val.s "Local"), ("region", Val.s "Local")]
  else if ip_address == "" then
    [("country", Val.s "Invalid IP"), ("countryCode", Val.s "XX"),
     ("city", Val.s "Unknown"), ("region", Val.s "Unknown")]
  else
    match net with
    | .response statusCode data =>
        if statusCode = 200 then
          if dget data "status" = some (Val.s "success") then
            [("country", (dget data "country").getD (Val.s "Unknown")),
             ("countryCode", (dget data "countryCode").getD (Val.s "XX")),
             ("city", (dget data "city").getD (Val.s "Unknown")),
             ("region", (dget data "region").getD (Val.s "Unknown")),
             ("latitude", (dget data "lat").getD Val.null),
             ("longitude", (dget data "lon").getD Val.null),
             ("timezone", (dget data "timezone").getD (Val.s "Unknown"))]
          else
            [("country", Val.s ("API Error: "
                ++ valToStr ((dget data "message").getD (Val.s "Unknown")))),
             ("countryCode", Val.s "XX"),
             ("city", Val.s "Unknown"), ("region", Val.s "Unknown")]
        else
          [("country", Val.s ("HTTP Error: " ++ toString statusCode)),
           ("countryCode", Val.s "XX"),
           ("city", Val.s "Unknown"), ("region", Val.s "Unknown")]
    | .timeout =>
        [("country", Val.s "Timeout Error"), ("countryCode", Val.s "XX"),
         ("city", Val.s "Unknown"), ("region", Val.s "Unknown")]
    | .exc e =>
        [("country", Val.s ("Error: " ++ e)), ("countryCode", Val.s "XX"),
         ("city", Val.s "Error"), ("region", Val.s "Error")]

/-! ### `get_cosmos_client` and `save_to_cosmos` (src/app.py lines 23-31, 143-169) -/

/-- Outcome of `DefaultAzureCredential()` plus `CosmosClient(...)`
construction inside `get_cosmos_client`: either both succeed, or some
exception (carrying `str(e)`) is raised during construction. -/
inductive ClientConstruction : Type where
  | succeeds : ClientConstruction
  | raises : String → ClientConstruction
deriving DecidableEq

/-- `get_cosmos_client` (lines 23-31): catches every construction exception
and returns `None`; it never raises.  The client object itself is opaque. -/
def get_cosmos_client : ClientConstruction → Option Unit
  | .succeeds => some ()
  | .raises _ => none

/-- Outcome of the single `container.create_item(body=...)` call. -/
inductive CosmosOutcome : Type where
  | created : CosmosOutcome
  | resourceExists : CosmosOutcome
  | otherError : String → CosmosOutcome
deriving DecidableEq

/-- What a call to `save_to_cosmos` did: the boolean it returned, the state
of the (mutated) argument dict after the call, and the body passed to the
single `create_item` call, when control reached it. -/
structure SaveResult : Type where
  saved : Bool
  visitorData : Dict
  inserted : Option Dict
deriving DecidableEq

/-- `save_to_cosmos` (lines 143-169).  The time is passed in as the two
`datetime.now()` readings the function makes: unix seconds (already through
`int(...)`) and the `isoformat()` string.  When `visitor_data` has no
`"ip_address"` key, line 156 raises `KeyError`, which the generic handler
turns into `False` before any mutation.  `CosmosResourceExistsError` is
treated as success; any other `create_item` failure returns `False`. -/
def save_to_cosmos (visitor_data : Dict) (construction : ClientConstruction)
    (nowUnix : Int) (nowIso : String) (store : CosmosOutcome) : SaveResult :=
  match get_cosmos_client construction with
  | none => ⟨false, visitor_data, none⟩
  | some _ =>
      match dget visitor_data "ip_address" with
      | none => ⟨false, visitor_data, none⟩
      | some ipv =>
          let stamped :=
            dset (dset visitor_data "id"
                (Val.s (valToStr ipv ++ "_" ++ toString nowUnix)))
              "timestamp" (Val.s nowIso)
          match store with
          | .created => ⟨true, stamped, some stamped⟩
          | .resourceExists => ⟨true, stamped, some stamped⟩
          | .otherError _ => ⟨false, stamped, some stamped⟩

/-! ### `health_check` (src/app.py lines 237-262) -/

/-- `health_check` (lines 237-262), as (status code, JSON body).  Its `try`
block wraps the call to `get_cosmos_client`, so the acquisition step is
passed as an `Except`: `Except.error` is an exception escaping that call
(impossible for the in-repo `get_cosmos_client`, which catches everything,
but the route handles it), `Except.ok` its returned optional client. -/
def health_check (acquire : Except String (Option Unit)) (nowIso : String) :
    Nat × Dict :=
  match acquire with
  | .ok c =>
      (200, [("status", Val.s "healthy"),
             ("cosmos_db", Val.s (if c.isSome then "connected" else "disconnected")),
             ("timestamp", Val.s nowIso)])
  | .error e =>
      (500, [("status", Val.s "unhealthy"), ("error", Val.s e),
             ("timestamp", Val.s nowIso)])

/-! ### `index` (src/app.py lines 172-212) -/

/-- The response of the `index` route: the rendered page carrying the
visitor record and the persistence flag, or the error page (HTTP 500)
carrying the exception text. -/
inductive IndexResponse : Type where
  | page : Dict → Bool → IndexResponse
  | errorPage : String → IndexResponse
deriving DecidableEq

/-- `index` (lines 172-212).  `get_client_ip` may raise (caught by the
route's handler, rendering the error page); `country_info["country"]` etc.
would raise `KeyError` if a subscripted key were missing (it never is, but
the handler would catch that too).  The record passed to `save_to_cosmos`
is `visitor_data.copy()`, so the page renders the unstamped original. -/
def index (ctx : RequestCtx) (net : HttpOutcome)
    (construction : ClientConstruction) (nowUnix : Int) (nowIso : String)
    (store : CosmosOutcome) : IndexResponse :=
  match get_client_ip ctx with
  | .error e => .errorPage e
  | .ok client_ip =>
      let user_agent := (headersGet ctx "User-Agent").getD "Unknown"
      let country_info := get_country_from_ip client_ip net
      match dget country_info "country", dget country_info "countryCode",
            dget country_info "city", dget country_info "region" with
      | some c, some cc, some ci, some reg =>
          let visitor_data : Dict :=
            [("ip_address", Val.s client_ip),
             ("user_agent", Val.s user_agent),
             ("country", c),
             ("country_code", cc),
             ("city", ci),
             ("region", reg),
             ("latitude", (dget country_info "latitude").getD Val.null),
             ("longitude", (dget country_info "longitude").getD Val.null),
             ("timezone", (dget country_info "timezone").getD Val.null),
             ("referer", Val.s ((headersGet ctx "Referer").getD "Direct")),
             ("accept_language",
               Val.s ((headersGet ctx "Accept-Language").getD "Unknown"))]
          let result :=
            save_to_cosmos visitor_data construction nowUnix nowIso store
          .page visitor_data result.saved
      | _, _, _, _ => .errorPage "KeyError"

/-! ### Specification-side definitions for the refinement claims -/

/-- The spec's wording of header precedence, for comparison with
`resolveIp`: each header is consulted when *present* (regardless of its
value's truthiness). -/
def specResolveIpByPresence (ctx : RequestCtx) : Option String :=
  if (headersGet ctx "X-Azure-ClientIP").isSome then
    headersGet ctx "X-Azure-ClientIP"
  else if (headersGet ctx "X-Forwarded-For").isSome then
    match headersGet ctx "X-Forwarded-For" with
    | some v => some (pyStrip ((pySplit ',' v).headD ""))
    | none => none
  else if (headersGet ctx "X-Real-IP").isSome then
    headersGet ctx "X-Real-IP"
  else
    ctx.remote_addr

/-- The spec's wording of port stripping, for comparison with `stripPort`:
remove only a *trailing* `:port`, i.e. the segment after the last colon,
unless the address is bracketed IPv6. -/
def dropTrailingPort (addr : String) : String :=
  if pyContains addr ':' && !(pyStartsWith addr "[") then
    String.intercalate ":" ((pySplit ':' addr).dropLast)
  else addr

/-- The full `GeoLocation` field set the spec's data model names, with the
keys `get_country_from_ip` actually uses. -/
def geoAllFieldsPresent (d : Dict) : Bool :=
  ["country", "countryCode", "city", "region",
   "latitude", "longitude", "timezone"].all (fun k => (dget d k).isSome)

/-- The four fields present in every branch of `get_country_from_ip`. -/
def geoCoreFieldsPresent (d : Dict) : Bool :=
  ["country", "countryCode", "city", "region"].all
    (fun k => (dget d k).isSome)

/-- The three `GeoLocation` fields beyond the core four are all absent
(no such key) in a record. -/
def geoExtendedFieldsAbsent (d : Dict) : Bool :=
  ["latitude", "longitude", "timezone"].all (fun k => (dget d k).isNone)

/-- Whether a call of `get_country_from_ip` is the successful-API case:
the IP is neither local/private nor empty (so the upstream call happens)
and the upstream outcome is HTTP 200 with JSON status `success`. -/
def isGeoSuccessCall (ip : String) (net : HttpOutcome) : Bool :=
  geoRequestsNetwork ip &&
    match net with
    | .response statusCode data =>
        statusCode == 200 && (dget data "status" == some (Val.s "success"))
    | .timeout => false
    | .exc _ => false

/-! ### Helper lemmas -/

theorem splitCharAux_append (sep : Char) (l : List Char) :
    ∀ (r acc : List Char), sep ∉ l →
    splitCharAux sep (l ++ sep :: r) acc =
      (acc.reverse ++ l) :: splitCharAux sep r [] := by
  induction l with
  | nil => intro r acc h; simp [splitCharAux]
  | cons c cs ih =>
      intro r acc h
      have hc : ¬ c = sep := fun hh => h (hh ▸ List.mem_cons_self c cs)
      simp only [List.cons_append, splitCharAux, if_neg hc, List.append_eq]
      rw [ih r (c :: acc) (fun hm => h (List.mem_cons_of_mem c hm))]
      simp

theorem stripPort_append_colon (a b : String)
    (ha : pyContains a ':' = false) (hbr : pyStartsWith a "[" = false) :
    stripPort (a ++ ":" ++ b) = a := by
  have hdata : (a ++ ":" ++ b).data = a.data ++ ':' :: b.data := by
    simp [String.data_append]
  have hnotmem : ':' ∉ a.data := by simpa [pyContains] using ha
  have hcont : pyContains (a ++ ":" ++ b) ':' = true := by
    simp [pyContains, String.data_append]
  have hpre : pyStartsWith (a ++ ":" ++ b) "[" = false := by
    unfold pyStartsWith at hbr ⊢
    have hb : "[".data = ['['] := rfl
    rw [hb] at hbr ⊢
    rw [hdata]
    cases had : a.data with
    | nil => simp [List.isPrefixOf]
    | cons c t =>
        rw [had] at hbr
        simp only [List.isPrefixOf, List.cons_append, Bool.and_true] at hbr ⊢
        simpa using hbr
  rw [stripPort, if_pos (by simp [hcont, hpre])]
  unfold pySplit
  rw [hdata, splitCharAux_append ':' a.data b.data [] hnotmem]
  simp

theorem resolveIp_isSome_of_remote (ctx : RequestCtx) (a : String)
    (ha : ctx.remote_addr = some a) : (resolveIp ctx).isSome = true := by
  unfold resolveIp
  split_ifs with h1 h2 h3
  · cases h : headersGet ctx "X-Azure-ClientIP" with
    | none => rw [h] at h1; simp [truthy] at h1
    | some v => simp [h]
  · cases h : headersGet ctx "X-Forwarded-For" with
    | none => rw [h] at h2; simp [truthy] at h2
    | some v => simp [h]
  · cases h : headersGet ctx "X-Real-IP" with
    | none => rw [h] at h3; simp [truthy] at h3
    | some v => simp [h]
  · simp [ha]

/-! ### The claims -/

/-- C1, counterexample: the local/private short-circuit record of
`get_country_from_ip` does not contain the `latitude` field at all (nor
`longitude`/`timezone`), so not every branch returns all fields of the
`GeoLocation` data model. -/
theorem C1_counterexample :
    geoAllFieldsPresent
      (get_country_from_ip "127.0.0.1" HttpOutcome.timeout) = false ∧
    dget (get_country_from_ip "127.0.0.1" HttpOutcome.timeout)
      "latitude" = none := by
  exact ⟨by decide, by decide⟩

/-- C1 (amended): every record returned by `get_country_from_ip` contains
the four fields `country`, `countryCode`, `city`, `region` in every
branch; the remaining `GeoLocation` fields `latitude`, `longitude`,
`timezone` are present exactly when the call is the successful-API case
(non-local, non-empty IP, HTTP 200, status `success`), and all three are
absent from every other branch (local/private, invalid-input,
API-failure, HTTP-error, timeout, generic-exception). -/
theorem C1_geo_fields_presence (ip : String) (net : HttpOutcome) :
    geoCoreFieldsPresent (get_country_from_ip ip net) = true ∧
    geoAllFieldsPresent (get_country_from_ip ip net) =
      isGeoSuccessCall ip net ∧
    geoExtendedFieldsAbsent (get_country_from_ip ip net) =
      (!(isGeoSuccessCall ip net)) := by
  by_cases hloc : isLocalIp ip = true
  · simp [get_country_from_ip, isGeoSuccessCall, geoRequestsNetwork, hloc,
      geoCoreFieldsPresent, geoAllFieldsPresent, geoExtendedFieldsAbsent, dget]
  · simp only [Bool.not_eq_true] at hloc
    by_cases hemp : (ip == "") = true
    · simp [get_country_from_ip, isGeoSuccessCall, geoRequestsNetwork, hloc,
        hemp, geoCoreFieldsPresent, geoAllFieldsPresent,
        geoExtendedFieldsAbsent, dget]
    · simp only [Bool.not_eq_true] at hemp
      have hne : ¬ ip = "" := by simpa using hemp
      cases net with
      | response statusCode data =>
          by_cases h200 : statusCode = 200
          · by_cases hst : dget data "status" = some (Val.s "success") <;>
              simp [get_country_from_ip, isGeoSuccessCall, geoRequestsNetwork,
                hloc, hemp, hne, h200, hst, geoCoreFieldsPresent,
                geoAllFieldsPresent, geoExtendedFieldsAbsent, dget]
          · simp [get_country_from_ip, isGeoSuccessCall, geoRequestsNetwork,
              hloc, hemp, hne, h200, geoCoreFieldsPresent,
              geoAllFieldsPresent, geoExtendedFieldsAbsent, dget]
      | timeout =>
          simp [get_country_from_ip, isGeoSuccessCall, geoRequestsNetwork,
            hloc, hemp, hne, geoCoreFieldsPresent, geoAllFieldsPresent,
            geoExtendedFieldsAbsent, dget]
      | exc e =>
          simp [get_country_from_ip, isGeoSuccessCall, geoRequestsNetwork,
            hloc, hemp, hne, geoCoreFieldsPresent, geoAllFieldsPresent,
            geoExtendedFieldsAbsent, dget]

/-- C2, counterexample: with no forwarding headers and an absent peer
address (`request.remote_addr` is `None`, which Flask permits), line 48
evaluates `":" in None` and raises `TypeError`, so `get_client_ip` does
have an error path. -/
theorem C2_counterexample :
    get_client_ip ⟨[], none⟩ =
      Except.error "TypeError: argument of type NoneType is not iterable" ∧
    exceptOk (get_client_ip ⟨[], none⟩) = false :=
  ⟨rfl, rfl⟩

/-- C2 (amended): `get_client_ip` returns normally exactly when the
resolved address is not Python `None`; in particular it never raises when
the transport-level peer address is present, whatever the headers are. -/
theorem C2_no_raise_characterization (ctx : RequestCtx) :
    exceptOk (get_client_ip ctx) = (resolveIp ctx).isSome ∧
    (∀ a : String, ctx.remote_addr = some a →
      ∃ s : String, get_client_ip ctx = Except.ok s) := by
  constructor
  · cases hres : resolveIp ctx <;> simp [get_client_ip, hres, exceptOk]
  · intro a ha
    have h := resolveIp_isSome_of_remote ctx a ha
    cases hres : resolveIp ctx with
    | none => rw [hres] at h; simp at h
    | some ip => exact ⟨stripPort ip, by simp [get_client_ip, hres]⟩

/-- C2, witness for the amended theorem at a concrete request context. -/
theorem C2_no_raise_characterization_witness :
    exceptOk (get_client_ip ⟨[], some "203.0.113.1"⟩) =
      (resolveIp ⟨[], some "203.0.113.1"⟩).isSome ∧
    ∃ s : String, get_client_ip ⟨[], some "203.0.113.1"⟩ = Except.ok s :=
  ⟨(C2_no_raise_characterization ⟨[], some "203.0.113.1"⟩).1,
   (C2_no_raise_characterization ⟨[], some "203.0.113.1"⟩).2 "203.0.113.1" rfl⟩

/-- C3: for a non-empty, non-local IP, `get_country_from_ip` classifies the
upstream outcome exactly as the spec says: 200 + status `success` gives the
normalized record; 200 + any other status gives the API-error record with
the provider message; a non-200 status gives the HTTP-error record with the
status code; a timeout gives the dedicated timeout record; any other
exception gives the generic error record with the exception text.  The
function is total here (both exception classes are caught), so it never
raises. -/
theorem C3_outcome_classification (ip : String) (data : Dict)
    (statusCode : Nat) (e : String)
    (hloc : isLocalIp ip = false) (hne : (ip == "") = false) :
    (dget data "status" = some (Val.s "success") →
      get_country_from_ip ip (HttpOutcome.response 200 data) =
        [("country", (dget data "country").getD (Val.s "Unknown")),
         ("countryCode", (dget data "countryCode").getD (Val.s "XX")),
         ("city", (dget data "city").getD (Val.s "Unknown")),
         ("region", (dget data "region").getD (Val.s "Unknown")),
         ("latitude", (dget data "lat").getD Val.null),
         ("longitude", (dget data "lon").getD Val.null),
         ("timezone", (dget data "timezone").getD (Val.s "Unknown"))]) ∧
    (dget data "status" ≠ some (Val.s "success") →
      get_country_from_ip ip (HttpOutcome.response 200 data) =
        [("country", Val.s ("API Error: "
            ++ valToStr ((dget data "message").getD (Val.s "Unknown")))),
         ("countryCode", Val.s "XX"),
         ("city", Val.s "Unknown"), ("region", Val.s "Unknown")]) ∧
    (statusCode ≠ 200 →
      get_country_from_ip ip (HttpOutcome.response statusCode data) =
        [("country", Val.s ("HTTP Error: " ++ toString statusCode)),
         ("countryCode", Val.s "XX"),
         ("city", Val.s "Unknown"), ("region", Val.s "Unknown")]) ∧
    (get_country_from_ip ip HttpOutcome.timeout =
        [("country", Val.s "Timeout Error"), ("countryCode", Val.s "XX"),
         ("city", Val.s "Unknown"), ("region", Val.s "Unknown")]) ∧
    (get_country_from_ip ip (HttpOutcome.exc e) =
        [("country", Val.s ("Error: " ++ e)), ("countryCode", Val.s "XX"),
         ("city", Val.s "Error"), ("region", Val.s "Error")]) := by
  refine ⟨?_, ?_, ?_, ?_, ?_⟩ <;> intros <;>
    simp [get_country_from_ip, hloc, hne, *]

/-- C3, witness: the classification at a concrete IP with a concrete
successful response, a timeout, and a non-200 response. -/
theorem C3_outcome_classification_witness :
    get_country_from_ip "203.0.113.1" (HttpOutcome.response 200
        [("status", Val.s "success"), ("country", Val.s "United States"),
         ("countryCode", Val.s "US"), ("city", Val.s "New York"),
         ("region", Val.s "NY"), ("lat", Val.num 40), ("lon", Val.num (-74)),
         ("timezone", Val.s "America/New_York")]) =
      [("country", Val.s "United States"), ("countryCode", Val.s "US"),
       ("city", Val.s "New York"), ("region", Val.s "NY"),
       ("latitude", Val.num 40), ("longitude", Val.num (-74)),
       ("timezone", Val.s "America/New_York")] ∧
    get_country_from_ip "203.0.113.1" HttpOutcome.timeout =
      [("country", Val.s "Timeout Error"), ("countryCode", Val.s "XX"),
       ("city", Val.s "Unknown"), ("region", Val.s "Unknown")] ∧
    get_country_from_ip "203.0.113.1" (HttpOutcome.response 429 []) =
      [("country", Val.s "HTTP Error: 429"), ("countryCode", Val.s "XX"),
       ("city", Val.s "Unknown"), ("region", Val.s "Unknown")] := by
  refine ⟨?_, ?_, ?_⟩
  · exact ((C3_outcome_classification "203.0.113.1"
      [("status", Val.s "success"), ("country", Val.s "United States"),
       ("countryCode", Val.s "US"), ("city", Val.s "New York"),
       ("region", Val.s "NY"), ("lat", Val.num 40), ("lon", Val.num (-74)),
       ("timezone", Val.s "America/New_York")] 429 "err"
      (by decide) (by decide)).1 (by decide)).trans (by decide)
  · exact (C3_outcome_classification "203.0.113.1" [] 429 "err"
      (by decide) (by decide)).2.2.2.1
  · exact (C3_outcome_classification "203.0.113.1" [] 429 "err"
      (by decide) (by decide)).2.2.1 (by decide)

/-- C4: `save_to_cosmos` always returns a boolean and never raises (it is
total here: every exception is caught).  It returns `True` when the insert
succeeds, `True` when the store reports the resource already exists,
`False` when no database client can be obtained, and `False` on any other
failure (a failing `create_item`, or the `KeyError` when the record lacks
`ip_address`). -/
theorem C4_save_boolean_outcomes (vd : Dict) (c : ClientConstruction)
    (nowUnix : Int) (nowIso : String) (store : CosmosOutcome) (e : String) :
    (get_cosmos_client c = none →
      (save_to_cosmos vd c nowUnix nowIso store).saved = false) ∧
    (∀ (u : Unit) (ipv : Val), get_cosmos_client c = some u →
      dget vd "ip_address" = some ipv →
      ((save_to_cosmos vd c nowUnix nowIso CosmosOutcome.created).saved = true ∧
       (save_to_cosmos vd c nowUnix nowIso
          CosmosOutcome.resourceExists).saved = true ∧
       (save_to_cosmos vd c nowUnix nowIso
          (CosmosOutcome.otherError e)).saved = false)) ∧
    (dget vd "ip_address" = none →
      (save_to_cosmos vd c nowUnix nowIso store).saved = false) := by
  refine ⟨?_, ?_, ?_⟩
  · intro h
    unfold save_to_cosmos
    rw [h]
  · intro u ipv hc hip
    unfold save_to_cosmos
    rw [hc, hip]
    exact ⟨rfl, rfl, rfl⟩
  · intro hip
    unfold save_to_cosmos
    cases hc : get_cosmos_client c with
    | none => rfl
    | some u => rw [hip]

/-- C4, witness at concrete inputs: missing client gives `False`, a
successful insert gives `True`. -/
theorem C4_save_boolean_outcomes_witness :
    (save_to_cosmos [("ip_address", Val.s "203.0.113.1")]
      (ClientConstruction.raises "auth down") 1700000000 "T"
      CosmosOutcome.created).saved = false ∧
    (save_to_cosmos [("ip_address", Val.s "203.0.113.1")]
      ClientConstruction.succeeds 1700000000 "T"
      CosmosOutcome.created).saved = true :=
  ⟨(C4_save_boolean_outcomes [("ip_address", Val.s "203.0.113.1")]
      (ClientConstruction.raises "auth down") 1700000000 "T"
      CosmosOutcome.created "boom").1 rfl,
   ((C4_save_boolean_outcomes [("ip_address", Val.s "203.0.113.1")]
      ClientConstruction.succeeds 1700000000 "T"
      CosmosOutcome.created "boom").2.1 () (Val.s "203.0.113.1")
      rfl rfl).1⟩

/-- C5, counterexample: on an unbracketed IPv6-style address the code keeps
the text before the *first* colon, which is not the original address with
only a trailing `:port` removed (that would keep the text before the
*last* colon, as `dropTrailingPort` — the spec claim's reading — does). -/
theorem C5_counterexample :
    stripPort "2001:db8::1" = "2001" ∧
    dropTrailingPort "2001:db8::1" = "2001:db8:" ∧
    stripPort "2001:db8::1" ≠ dropTrailingPort "2001:db8::1" :=
  ⟨by decide, by decide, by decide⟩

/-- C5 (amended): when the resolved address contains a colon and is not
bracketed IPv6, `get_client_ip` keeps only the text before the *first*
colon (so everything from the first colon onward is removed, not just a
trailing port); addresses without a colon, and bracketed addresses, are
returned unchanged, and `203.0.113.1:8080` resolves to `203.0.113.1`. -/
theorem C5_strip_before_first_colon (a b x y : String)
    (ha : pyContains a ':' = false) (hbr : pyStartsWith a "[" = false)
    (hx : pyContains x ':' = false) (hy : pyStartsWith y "[" = true) :
    stripPort (a ++ ":" ++ b) = a ∧ stripPort x = x ∧ stripPort y = y ∧
    stripPort "203.0.113.1:8080" = "203.0.113.1" := by
  refine ⟨stripPort_append_colon a b ha hbr, ?_, ?_, by decide⟩
  · simp [stripPort, hx]
  · simp [stripPort, hy]

/-- C5, witness for the amended theorem at concrete addresses. -/
theorem C5_strip_before_first_colon_witness :
    stripPort ("203.0.113.1" ++ ":" ++ "8080") = "203.0.113.1" ∧
    stripPort "127.0.0.1" = "127.0.0.1" ∧
    stripPort "[2001:db8::1]:443" = "[2001:db8::1]:443" :=
  ⟨(C5_strip_before_first_colon "203.0.113.1" "8080" "127.0.0.1"
      "[2001:db8::1]:443" (by decide) (by decide) (by decide) (by decide)).1,
   (C5_strip_before_first_colon "203.0.113.1" "8080" "127.0.0.1"
      "[2001:db8::1]:443" (by decide) (by decide) (by decide) (by decide)).2.1,
   (C5_strip_before_first_colon "203.0.113.1" "8080" "127.0.0.1"
      "[2001:db8::1]:443" (by decide) (by decide) (by decide) (by decide)).2.2.1⟩

/-- C6: `/health` returns 200 with `cosmos_db = "connected"` when client
construction succeeds and 200 with `"disconnected"` when `get_cosmos_client`
returns no client (it catches every construction exception itself); the
response is 500 (with status `"unhealthy"`) exactly when the acquisition
step raises through to the route — which is the only 500 path. -/
theorem C6_health_paths (c : ClientConstruction)
    (acquire : Except String (Option Unit)) (nowIso : String) :
    (health_check (Except.ok (get_cosmos_client c)) nowIso).1 = 200 ∧
    dget (health_check (Except.ok (get_cosmos_client c)) nowIso).2
        "cosmos_db" =
      some (Val.s (if (get_cosmos_client c).isSome then "connected"
                   else "disconnected")) ∧
    dget (health_check (Except.ok (get_cosmos_client c)) nowIso).2
        "status" = some (Val.s "healthy") ∧
    ((health_check acquire nowIso).1 = 500 ↔
      ∃ e : String, acquire = Except.error e) ∧
    (∀ e : String,
      dget (health_check (Except.error e) nowIso).2 "status" =
        some (Val.s "unhealthy")) := by
  refine ⟨rfl, ?_, ?_, ?_, ?_⟩
  · cases c <;> simp [health_check, get_cosmos_client, dget]
  · cases c <;> simp [health_check, get_cosmos_client, dget]
  · cases acquire with
    | ok v => simp [health_check]
    | error e => simp [health_check]
  · intro e
    simp [health_check, dget]

/-- C6, witness at concrete acquisition outcomes. -/
theorem C6_health_paths_witness :
    (health_check (Except.ok (get_cosmos_client
        ClientConstruction.succeeds)) "T").1 = 200 ∧
    (health_check (Except.error "Health check error") "T").1 = 500 ∧
    dget (health_check (Except.error "Health check error") "T").2 "status" =
      some (Val.s "unhealthy") :=
  ⟨(C6_health_paths ClientConstruction.succeeds
      (Except.ok (some ())) "T").1,
   (C6_health_paths ClientConstruction.succeeds
      (Except.error "Health check error") "T").2.2.2.1.mpr
      ⟨"Health check error", rfl⟩,
   (C6_health_paths ClientConstruction.succeeds
      (Except.error "Health check error") "T").2.2.2.2 "Health check error"⟩

/-- C7: when `save_to_cosmos` reaches its single insert (a client was
obtained and the record has its `ip_address`), the inserted body is the
record with exactly the two stamped fields added: `id` equal to
`{ip_address}_{unix_timestamp}` and `timestamp` equal to the current time's
ISO string; every other key maps to its original value. -/
theorem C7_persist_stamps_id_timestamp (vd : Dict) (c : ClientConstruction)
    (nowUnix : Int) (nowIso : String) (store : CosmosOutcome)
    (u : Unit) (ipv : Val)
    (hc : get_cosmos_client c = some u)
    (hip : dget vd "ip_address" = some ipv) :
    ∃ body : Dict,
      (save_to_cosmos vd c nowUnix nowIso store).inserted = some body ∧
      dget body "id" =
        some (Val.s (valToStr ipv ++ "_" ++ toString nowUnix)) ∧
      dget body "timestamp" = some (Val.s nowIso) ∧
      ∀ k : String, k ≠ "id" → k ≠ "timestamp" → dget body k = dget vd k := by
  refine ⟨dset (dset vd "id"
      (Val.s (valToStr ipv ++ "_" ++ toString nowUnix)))
      "timestamp" (Val.s nowIso), ?_, ?_, ?_, ?_⟩
  · unfold save_to_cosmos
    rw [hc, hip]
    cases store <;> rfl
  · rw [dget_dset_ne _ _ _ _ (by decide)]
    exact dget_dset_self _ _ _
  · exact dget_dset_self _ _ _
  · intro k hk1 hk2
    rw [dget_dset_ne _ _ _ _ hk2, dget_dset_ne _ _ _ _ hk1]

/-- C7, witness: the stamped insert at a concrete record and clock. -/
theorem C7_persist_stamps_id_timestamp_witness :
    ∃ body : Dict,
      (save_to_cosmos
        [("ip_address", Val.s "203.0.113.1"), ("country", Val.s "United States")]
        ClientConstruction.succeeds 1700000000 "2023-11-14T22:13:20"
        CosmosOutcome.created).inserted = some body ∧
      dget body "id" =
        some (Val.s (valToStr (Val.s "203.0.113.1") ++ "_"
          ++ toString (1700000000 : Int))) ∧
      dget body "timestamp" = some (Val.s "2023-11-14T22:13:20") ∧
      ∀ k : String, k ≠ "id" → k ≠ "timestamp" →
        dget body k =
          dget [("ip_address", Val.s "203.0.113.1"),
                ("country", Val.s "United States")] k :=
  C7_persist_stamps_id_timestamp
    [("ip_address", Val.s "203.0.113.1"), ("country", Val.s "United States")]
    ClientConstruction.succeeds 1700000000 "2023-11-14T22:13:20"
    CosmosOutcome.created () (Val.s "203.0.113.1") rfl rfl

/-- C8: for every IP that is `127.0.0.1` or `localhost` or starts with
`192.168.` or `10.` or `172.`, `get_country_from_ip` returns the fixed
Local/Private record; the result does not depend on the network outcome and
control never reaches the outbound `requests.get`. -/
theorem C8_local_private_short_circuit (ip : String) (net net2 : HttpOutcome)
    (h : ip = "127.0.0.1" ∨ ip = "localhost" ∨
         pyStartsWith ip "192.168." = true ∨ pyStartsWith ip "10." = true ∨
         pyStartsWith ip "172." = true) :
    get_country_from_ip ip net =
      [("country", Val.s "Local/Private"), ("countryCode", Val.s "LOCAL"),
       ("city", Val.s "Local"), ("region", Val.s "Local")] ∧
    get_country_from_ip ip net = get_country_from_ip ip net2 ∧
    geoRequestsNetwork ip = false := by
  have hloc : isLocalIp ip = true := by
    unfold isLocalIp
    rcases h with h | h | h | h | h <;> simp [h]
  refine ⟨?_, ?_, ?_⟩
  · simp [get_country_from_ip, hloc]
  · simp [get_country_from_ip, hloc]
  · simp [geoRequestsNetwork, hloc]

/-- C8, witness at a concrete private IP and two distinct network
outcomes. -/
theorem C8_local_private_short_circuit_witness :
    get_country_from_ip "192.168.1.1" HttpOutcome.timeout =
      [("country", Val.s "Local/Private"), ("countryCode", Val.s "LOCAL"),
       ("city", Val.s "Local"), ("region", Val.s "Local")] ∧
    get_country_from_ip "192.168.1.1" HttpOutcome.timeout =
      get_country_from_ip "192.168.1.1" (HttpOutcome.exc "boom") ∧
    geoRequestsNetwork "192.168.1.1" = false :=
  C8_local_private_short_circuit "192.168.1.1" HttpOutcome.timeout
    (HttpOutcome.exc "boom")
    (Or.inr (Or.inr (Or.inl (by decide))))

/-- C9, counterexample: a *present* but empty `X-Azure-ClientIP` header is
falsy in Python, so the code falls through to `X-Forwarded-For`, while the
claim's presence-based precedence (`specResolveIpByPresence`) would select
the empty platform header. -/
theorem C9_counterexample :
    resolveIp ⟨[("X-Azure-ClientIP", ""),
        ("X-Forwarded-For", "203.0.113.1, 10.0.0.1")], none⟩ =
      some "203.0.113.1" ∧
    specResolveIpByPresence ⟨[("X-Azure-ClientIP", ""),
        ("X-Forwarded-For", "203.0.113.1, 10.0.0.1")], none⟩ = some "" ∧
    resolveIp ⟨[("X-Azure-ClientIP", ""),
        ("X-Forwarded-For", "203.0.113.1, 10.0.0.1")], none⟩ ≠
      specResolveIpByPresence ⟨[("X-Azure-ClientIP", ""),
        ("X-Forwarded-For", "203.0.113.1, 10.0.0.1")], none⟩ ∧
    get_client_ip ⟨[("X-Azure-ClientIP", ""),
        ("X-Forwarded-For", "203.0.113.1, 10.0.0.1")], none⟩ =
      Except.ok "203.0.113.1" :=
  ⟨by decide, by decide, by decide, rfl⟩

/-- C9 (amended): `get_client_ip` selects the client address by strict
precedence over the headers *present with a non-empty (truthy) value*:
`X-Azure-ClientIP`, else the first comma-separated entry of
`X-Forwarded-For` (stripped), else `X-Real-IP`, else the raw peer address;
`X-Forwarded-For: 203.0.113.1, 10.0.0.1` alone resolves to `203.0.113.1`. -/
theorem C9_truthy_precedence (ctx : RequestCtx) :
    (∀ v : String, headersGet ctx "X-Azure-ClientIP" = some v → v ≠ "" →
      get_client_ip ctx = Except.ok (stripPort v)) ∧
    (truthy (headersGet ctx "X-Azure-ClientIP") = false →
      ∀ v : String, headersGet ctx "X-Forwarded-For" = some v → v ≠ "" →
      get_client_ip ctx =
        Except.ok (stripPort (pyStrip ((pySplit ',' v).headD "")))) ∧
    (truthy (headersGet ctx "X-Azure-ClientIP") = false →
      truthy (headersGet ctx "X-Forwarded-For") = false →
      ∀ v : String, headersGet ctx "X-Real-IP" = some v → v ≠ "" →
      get_client_ip ctx = Except.ok (stripPort v)) ∧
    (truthy (headersGet ctx "X-Azure-ClientIP") = false →
      truthy (headersGet ctx "X-Forwarded-For") = false →
      truthy (headersGet ctx "X-Real-IP") = false →
      ∀ a : String, ctx.remote_addr = some a →
      get_client_ip ctx = Except.ok (stripPort a)) ∧
    get_client_ip ⟨[("X-Forwarded-For", "203.0.113.1, 10.0.0.1")], none⟩ =
      Except.ok "203.0.113.1" := by
  refine ⟨?_, ?_, ?_, ?_, rfl⟩
  · intro v hv hne
    have htv : truthy (some v) = true := by simp [truthy, hne]
    simp [get_client_ip, resolveIp, hv, htv]
  · intro h1 v hv hne
    have htv : truthy (some v) = true := by simp [truthy, hne]
    simp [get_client_ip, resolveIp, h1, hv, htv]
  · intro h1 h2 v hv hne
    have htv : truthy (some v) = true := by simp [truthy, hne]
    simp [get_client_ip, resolveIp, h1, h2, hv, htv]
  · intro h1 h2 h3 a ha
    simp [get_client_ip, resolveIp, h1, h2, h3, ha]

/-- C9, witness: with both the platform header and the forwarded-for header
present and non-empty, the platform header wins. -/
theorem C9_truthy_precedence_witness :
    get_client_ip ⟨[("X-Azure-ClientIP", "203.0.113.5"),
        ("X-Forwarded-For", "10.0.0.1")], none⟩ =
      Except.ok (stripPort "203.0.113.5") :=
  (C9_truthy_precedence ⟨[("X-Azure-ClientIP", "203.0.113.5"),
      ("X-Forwarded-For", "10.0.0.1")], none⟩).1 "203.0.113.5" rfl (by decide)

/-- C10: whenever the `index` route renders its page, the rendered visitor
record carries no `id` and no `timestamp` field (the persistence step
stamps only the copy passed to `save_to_cosmos`), and the rendered record
is identical whatever the persistence inputs and outcome are. -/
theorem C10_rendered_record_unstamped (ctx : RequestCtx) (net : HttpOutcome)
    (c c2 : ClientConstruction) (tU tU2 : Int) (tI tI2 : String)
    (st st2 : CosmosOutcome) (vd : Dict) (saved : Bool)
    (h : index ctx net c tU tI st = IndexResponse.page vd saved) :
    dget vd "id" = none ∧ dget vd "timestamp" = none ∧
    ∃ saved2 : Bool,
      index ctx net c2 tU2 tI2 st2 = IndexResponse.page vd saved2 := by
  unfold index at h ⊢
  split at h
  · exact absurd h (by simp)
  · rename_i client_ip heq
    dsimp only at h ⊢
    split at h
    · rename_i cval ccval cityval regval h1 h2 h3 h4
      simp only [IndexResponse.page.injEq] at h
      obtain ⟨hvd, _⟩ := h
      subst hvd
      exact ⟨by simp [dget], by simp [dget], ⟨_, rfl⟩⟩
    · exact absurd h (by simp)

/-- C10, witness: a concrete request rendered with two different
persistence environments carries the same unstamped record. -/
theorem C10_rendered_record_unstamped_witness :
    dget [("ip_address", Val.s "127.0.0.1"), ("user_agent", Val.s "Unknown"),
          ("country", Val.s "Local/Private"), ("country_code", Val.s "LOCAL"),
          ("city", Val.s "Local"), ("region", Val.s "Local"),
          ("latitude", Val.null), ("longitude", Val.null),
          ("timezone", Val.null), ("referer", Val.s "Direct"),
          ("accept_language", Val.s "Unknown")] "id" = none ∧
    dget [("ip_address", Val.s "127.0.0.1"), ("user_agent", Val.s "Unknown"),
          ("country", Val.s "Local/Private"), ("country_code", Val.s "LOCAL"),
          ("city", Val.s "Local"), ("region", Val.s "Local"),
          ("latitude", Val.null), ("longitude", Val.null),
          ("timezone", Val.null), ("referer", Val.s "Direct"),
          ("accept_language", Val.s "Unknown")] "timestamp" = none ∧
    ∃ saved2 : Bool,
      index ⟨[("X-Real-IP", "127.0.0.1")], none⟩ HttpOutcome.timeout
        (ClientConstruction.raises "auth down") 1 "T2"
        (CosmosOutcome.otherError "boom") =
      IndexResponse.page
        [("ip_address", Val.s "127.0.0.1"), ("user_agent", Val.s "Unknown"),
         ("country", Val.s "Local/Private"), ("country_code", Val.s "LOCAL"),
         ("city", Val.s "Local"), ("region", Val.s "Local"),
         ("latitude", Val.null), ("longitude", Val.null),
         ("timezone", Val.null), ("referer", Val.s "Direct"),
         ("accept_language", Val.s "Unknown")] saved2 :=
  C10_rendered_record_unstamped ⟨[("X-Real-IP", "127.0.0.1")], none⟩
    HttpOutcome.timeout ClientConstruction.succeeds
    (ClientConstruction.raises "auth down") 1700000000 1 "T" "T2"
    CosmosOutcome.created (CosmosOutcome.otherError "boom")
    _ true (by decide)

end VisitorApp
